import Mathlib

/-!
A verification development for the football event/tracking data pipeline
(`src/utils.py`, `src/data_loader.py`).

The Python code is shallowly embedded: pandas data frames become lists of
typed rows, float columns become `ℚ`, raised exceptions become `Except` /
`Option` results, and the filesystem and the static match-id-to-path table
(`src/configs/static.py`) become explicit parameters.  String manipulation
(Python `str.split`, `int()`, `float()`, `str.startswith`, string ordering)
is modelled on `String.data` character lists so that every definition
evaluates on concrete inputs.
-/

/-- One tracking-frame row: the `half` and `time_passed_in_half` columns of a
per-match `home.csv` / `away.csv` table.  The player/ball coordinate columns
play no role in the alignment and joining logic and are omitted. -/
structure TrackRow where
  half : Nat
  time_passed_in_half : ℚ
deriving DecidableEq, Repr

/-- A tracking row tagged with the originating event id, as produced by
`get_tracking_from_events_data` (`tracking_frame['event_id'] = eventId`). -/
structure TaggedRow where
  row : TrackRow
  event_id : Nat
deriving DecidableEq, Repr

/-- One event row of the events table: the columns `matchId`, `teamName`,
`matchPeriod`, `matchTimestamp` and `eventId` used by the loader. -/
structure Event where
  matchId : Nat
  teamName : String
  matchPeriod : String
  matchTimestamp : String
  eventId : Nat
deriving DecidableEq, Repr

/-- Model of `matchPeriod_to_half` from `src/utils.py`: the five-entry dict lookup
with `None` (here `none`) as the default for every other code. -/
def matchPeriod_to_half (matchPeriod : String) : Option Nat :=
  if matchPeriod = "1H" then some 1
  else if matchPeriod = "2H" then some 2
  else if matchPeriod = "1E" then some 3
  else if matchPeriod = "2E" then some 4
  else if matchPeriod = "P" then some 5
  else none

/-- One step of `pySplit`: prepend character `c` to the split `r` of the
remaining characters -- a separator opens a new empty part, any other
character extends the first part. -/
def pySplitStep (sep c : Char) (r : List (List Char)) : List (List Char) :=
  if c = sep then [] :: r
  else
    match r with
    | [] => [[c]]
    | p :: ps => (c :: p) :: ps

/-- Python `str.split(sep)` for a one-character separator, on the character
list of the string: splitting an n-separator string yields n+1 parts, and
splitting the empty string yields one empty part. -/
def pySplit (sep : Char) : List Char → List (List Char)
  | [] => [[]]
  | c :: rest => pySplitStep sep c (pySplit sep rest)

/-- The numeric value of a digit string (most significant digit first). -/
def digitsToNat (cs : List Char) : Nat :=
  cs.foldl (fun a c => a * 10 + (c.toNat - 48)) 0

/-- Whether `cs` is a non-empty string of decimal digits. -/
def isDigits (cs : List Char) : Bool :=
  !cs.isEmpty && cs.all (fun c => c.isDigit)

/-- Python `int(s)` on the decimal-literal fragment: an optional sign
followed by digits; `none` where `int()` raises `ValueError`. -/
def pyIntChars : List Char → Option Int
  | '-' :: rest => if isDigits rest then some (-(digitsToNat rest : Int)) else none
  | '+' :: rest => if isDigits rest then some ((digitsToNat rest : Int)) else none
  | cs => if isDigits cs then some ((digitsToNat cs : Int)) else none

/-- Python `float(s)` on an unsigned decimal literal `D*[.D*]` (at least one
digit overall); `none` where `float()` raises `ValueError`. -/
def pyFloatCharsNonneg (cs : List Char) : Option ℚ :=
  match pySplit '.' cs with
  | [i] => if isDigits i then some ((digitsToNat i : ℚ)) else none
  | [i, f] =>
    if (i.all (fun c => c.isDigit) && f.all (fun c => c.isDigit)) &&
        !(i.isEmpty && f.isEmpty) then
      some ((digitsToNat i : ℚ) + (digitsToNat f : ℚ) / (10 : ℚ) ^ f.length)
    else none
  | _ => none

/-- Python `float(s)` on the decimal-literal fragment, with an optional
leading sign. -/
def pyFloatChars : List Char → Option ℚ
  | '-' :: rest => (pyFloatCharsNonneg rest).map (fun q => -q)
  | '+' :: rest => pyFloatCharsNonneg rest
  | cs => pyFloatCharsNonneg cs

/-- Model of `convert_HHMMSS_to_secs` from `src/utils.py`:
`int(parts[0])*60*60 + int(parts[1])*60 + float(parts[2])` after splitting on
`":"`.  Parts beyond the third are ignored, exactly as indexing does; `none`
models the `IndexError`/`ValueError` the Python raises on malformed input. -/
def convert_HHMMSS_to_secs (HHMMSS : String) : Option ℚ :=
  match pySplit ':' HHMMSS.data with
  | p0 :: p1 :: p2 :: _ =>
    match pyIntChars p0, pyIntChars p1, pyFloatChars p2 with
    | some h, some m, some s => some ((h : ℚ) * 60 * 60 + (m : ℚ) * 60 + s)
    | _, _, _ => none
  | _ => none

/-- Model of `extract_half_and_time_passed_in_half` from `src/utils.py`.  The outer
`Option` models the exception `convert_HHMMSS_to_secs` may raise; the inner
`Option Nat` is the possibly-`None` half. -/
def extract_half_and_time_passed_in_half (event : Event) : Option (Option Nat × ℚ) :=
  let half := matchPeriod_to_half event.matchPeriod
  let minute_offset : ℚ :=
    if half = some 2 then 45 else if half = some 3 then 90
    else if half = some 4 then 105 else 0
  match convert_HHMMSS_to_secs event.matchTimestamp with
  | none => none
  | some secs => some (half, secs - minute_offset * 60)

/-- pandas `Series.abs` on one value (equal to `|q|`, see `absQ_eq_abs`). -/
def absQ (q : ℚ) : ℚ := if q < 0 then -q else q

/-- pandas `(series - time).abs().idxmin()` followed by `.loc`: the first row
(in table order) whose `time_passed_in_half` minimizes the absolute distance
to `time`.  `best` is the running minimum, seeded with the first row. -/
def idxminAbs (time : ℚ) (best : TrackRow) : List TrackRow → TrackRow
  | [] => best
  | r :: rs =>
    if absQ (r.time_passed_in_half - time) < absQ (best.time_passed_in_half - time) then
      idxminAbs time r rs
    else
      idxminAbs time best rs

/-- Model of `_timestamp_helper` from `src/utils.py`, at its default `time_column`
(the only time column the row model carries, and the only column the joiner
uses): filter to the half, raise on empty, return the `time_passed_in_half`
of the row minimizing the absolute distance. -/
def timestamp_helper (half : Nat) (time : ℚ) (tracking : List TrackRow) :
    Except String ℚ :=
  match tracking.filter (fun r => r.half == half) with
  | [] => .error "No tracking data for the specified half."
  | r :: rs => .ok ((idxminAbs time r rs).time_passed_in_half)

/-- The `home_frame` / `away_frame` selection of the joiner: the rows of a
tracking table matching `(half, closest_timestamp)` exactly. -/
def select_frame (tracking : List TrackRow) (half : Nat) (closest_timestamp : ℚ) :
    List TrackRow :=
  tracking.filter
    (fun r => decide (r.half = half ∧ r.time_passed_in_half = closest_timestamp))

/-- The body of the per-event loop in `get_tracking_from_events_data`
(`src/data_loader.py`): `none` is a skip -- a caught per-event exception, a
`None` half, or an empty home/away selection -- and `some` carries the
event-tagged home and away frames appended to the accumulators. -/
def process_event (home_tracking away_tracking : List TrackRow) (event_row : Event) :
    Option (List TaggedRow × List TaggedRow) :=
  match extract_half_and_time_passed_in_half event_row with
  | none => none
  | some (none, _) => none
  | some (some half, time_passed_in_half) =>
    match timestamp_helper half time_passed_in_half home_tracking with
    | .error _ => none
    | .ok closest_timestamp =>
      if (select_frame home_tracking half closest_timestamp).isEmpty ||
          (select_frame away_tracking half closest_timestamp).isEmpty then none
      else
        some ((select_frame home_tracking half closest_timestamp).map
                (fun r => TaggedRow.mk r event_row.eventId),
              (select_frame away_tracking half closest_timestamp).map
                (fun r => TaggedRow.mk r event_row.eventId))

/-- pandas `Series.unique`: the distinct values in order of first appearance,
written as the accumulation the implementation performs. -/
def uniqueFirst {α : Type} [DecidableEq α] (xs : List α) : List α :=
  xs.foldl (fun acc x => if x ∈ acc then acc else acc ++ [x]) []

/-- Spec-side formulation of "distinct values in order of first appearance":
keep the head, drop its later duplicates, recurse.  Compared with
`uniqueFirst` in `uniqueFirst_eq_firstUniques`. -/
def firstUniques {α : Type} [DecidableEq α] : List α → List α
  | [] => []
  | x :: xs => x :: firstUniques (xs.filter (fun y => decide (y ≠ x)))
termination_by l => l.length
decreasing_by
  simp only [List.length_cons]
  exact Nat.lt_succ_of_le (List.length_filter_le _ _)

/-- The per-match block of `get_tracking_from_events_data`: the
`load_tracking_data` argument abstracts `self.load_tracking_data(match_id,
"both")` -- `.error` is a raised (and caught, per match, contributing
nothing) exception, `.ok` the home/away pair.  The match's events are
processed in table order. -/
def process_match
    (load_tracking_data : Nat → Except String (List TrackRow × List TrackRow))
    (df_event : List Event) (match_id : Nat) :
    List (List TaggedRow × List TaggedRow) :=
  match load_tracking_data match_id with
  | .error _ => []
  | .ok (home_tracking, away_tracking) =>
    (df_event.filter (fun e => e.matchId == match_id)).filterMap
      (process_event home_tracking away_tracking)

/-- The per-event home/away frame pairs the joiner accumulates, over all
matches: one `process_match` block per unique match id, in order of first
appearance, flattened in accumulation order. -/
def joiner_all_frames
    (load_tracking_data : Nat → Except String (List TrackRow × List TrackRow))
    (df_event : List Event) : List (List TaggedRow × List TaggedRow) :=
  ((uniqueFirst (df_event.map (fun e => e.matchId))).map
    (process_match load_tracking_data df_event)).flatten

/-- Model of `get_tracking_from_events_data` from `src/data_loader.py`: two empty
tables for an empty input or when nothing was accumulated, otherwise the
concatenated home and concatenated away frames of all accumulated pairs. -/
def get_tracking_from_events_data
    (load_tracking_data : Nat → Except String (List TrackRow × List TrackRow))
    (df_event : List Event) : List TaggedRow × List TaggedRow :=
  if df_event.isEmpty then ([], []) else
  if (joiner_all_frames load_tracking_data df_event).isEmpty then ([], [])
  else (((joiner_all_frames load_tracking_data df_event).map Prod.fst).flatten,
        ((joiner_all_frames load_tracking_data df_event).map Prod.snd).flatten)

/-- The in-memory state of a `DataLoader`: the loaded events table and the
static match-id-to-path table (`MATCH_ID_TO_PATH` in `src/configs/static.py`,
whose concrete content is data, not code, and is therefore a parameter). -/
structure DataLoaderState where
  events_df : List Event
  match_id_to_path : List (Nat × String)
deriving DecidableEq, Repr

/-- Model of `DataLoader.get_competitions`. -/
def get_competitions : List String := ["H_EURO2024", "Q_EURO2025", "U21_EURO2025"]

/-- Python `s.startswith(pre)`. -/
def startsWithStr (s pre : String) : Bool := pre.data.isPrefixOf s.data

/-- The `competition_matches` list comprehension of `src/data_loader.py`:
match ids whose path starts with the competition name. -/
def competition_matches (match_id_to_path : List (Nat × String))
    (competition : String) : List Nat :=
  (match_id_to_path.filter (fun p => startsWithStr p.2 competition)).map
    (fun p => p.1)

/-- Python string `<=`: lexicographic comparison of code points. -/
def charListLe : List Char → List Char → Bool
  | [], _ => true
  | _ :: _, [] => false
  | a :: l1, b :: l2 =>
    if a.toNat < b.toNat then true
    else if b.toNat < a.toNat then false
    else charListLe l1 l2

/-- Python string `<=`, on strings. -/
def strLe (a b : String) : Bool := charListLe a.data b.data

/-- Insertion step of `sortStrings`. -/
def insertSorted (s : String) : List String → List String
  | [] => [s]
  | x :: xs => if strLe s x then s :: x :: xs else x :: insertSorted s xs

/-- Python `sorted` on a list of strings (insertion sort; stable, like
Python's sort). -/
def sortStrings (l : List String) : List String := l.foldr insertSorted []

/-- Model of `DataLoader.get_teams_by_competition`: the sorted unique team names of
the events whose match id belongs to the competition. -/
def get_teams_by_competition (st : DataLoaderState) (competition : String) :
    List String :=
  let cm := competition_matches st.match_id_to_path competition
  let competition_events := st.events_df.filter (fun e => cm.contains e.matchId)
  sortStrings (uniqueFirst (competition_events.map (fun e => e.teamName)))

/-- Model of `DataLoader.get_all_teams`: the sorted unique team names of all events. -/
def get_all_teams (st : DataLoaderState) : List String :=
  sortStrings (uniqueFirst (st.events_df.map (fun e => e.teamName)))

/-- The two `ValueError`s `load_event_matches` can raise. -/
inductive LoaderError
  | invalidCompetition
  | teamNotFound
deriving DecidableEq, Repr

/-- Python truthiness of an optional string argument: `None` and the empty
string are falsy, so `if competition:` / `if team:` skip the filter for
both. -/
def truthy : Option String → Bool
  | none => false
  | some s => !(s == "")

/-- Model of `DataLoader.load_event_matches` from `src/data_loader.py`: the
competition filter (with its validity check), then the team filter (prefix
resolution against the scoped team list, first match wins), then the
max-matches filter (first `n` unique match ids in order of appearance). -/
def load_event_matches (st : DataLoaderState) (competition team : Option String)
    (max_number_of_matches : Option Nat) : Except LoaderError (List Event) :=
  let df := st.events_df
  let step1 : Except LoaderError (List Event) :=
    if truthy competition then
      let c := competition.getD ""
      if get_competitions.contains c then
        .ok (df.filter
          (fun e => (competition_matches st.match_id_to_path c).contains e.matchId))
      else .error .invalidCompetition
    else .ok df
  match step1 with
  | .error err => .error err
  | .ok df1 =>
    let step2 : Except LoaderError (List Event) :=
      if truthy team then
        let t := team.getD ""
        let available_teams :=
          if truthy competition then get_teams_by_competition st (competition.getD "")
          else get_all_teams st
        match available_teams.filter (fun s => startsWithStr s t) with
        | [] => .error .teamNotFound
        | matching_team :: _ =>
          let team_matches := uniqueFirst
            ((df1.filter (fun e => e.teamName == matching_team)).map (fun e => e.matchId))
          .ok (df1.filter (fun e => team_matches.contains e.matchId))
      else .ok df1
    match step2 with
    | .error err => .error err
    | .ok df2 =>
      match max_number_of_matches with
      | none => .ok df2
      | some n =>
        let unique_matches := (uniqueFirst (df2.map (fun e => e.matchId))).take n
        .ok (df2.filter (fun e => unique_matches.contains e.matchId))

/-- The filesystem as `load_tracking_data` sees it: which paths exist, and
the rows `pd.read_csv` yields for a path. -/
structure FileSystem where
  pathExists : String → Bool
  readCsv : String → List TrackRow

/-- The return shape of `load_tracking_data`: one table for `"home"` or
`"away"`, a pair for `"both"`. -/
inductive TrackingResult
  | single (df : List TrackRow)
  | both (home away : List TrackRow)
deriving DecidableEq, Repr

/-- The four raise sites of `load_tracking_data`, in source order:
`ValueError` for an unknown match id, `FileNotFoundError` for a missing
match directory or tracking file, `ValueError` for a bad side argument. -/
inductive LoadTrackingError
  | matchIdNotFound (match_id : Nat)
  | matchDirectoryNotFound (path : String)
  | trackingFileNotFound (path : String)
  | invalidHomeOrAway
deriving DecidableEq, Repr

/-- Model of `DataLoader.load_tracking_data` from `src/data_loader.py`.  Path joins
(`pathlib /`) become string concatenation with `"/"`.  Both per-side file
checks run (home first, then away, as the dict iterates) before the side
argument is examined. -/
def load_tracking_data (fs : FileSystem) (match_id_to_path : List (Nat × String))
    (data_path : String) (match_id : Nat) (home_or_away : String) :
    Except LoadTrackingError TrackingResult :=
  match match_id_to_path.lookup match_id with
  | none => .error (.matchIdNotFound match_id)
  | some rel =>
    let match_path := data_path ++ "/" ++ rel
    if !fs.pathExists match_path then .error (.matchDirectoryNotFound match_path)
    else
      let home_file := match_path ++ "/home.csv"
      let away_file := match_path ++ "/away.csv"
      if !fs.pathExists home_file then .error (.trackingFileNotFound home_file)
      else if !fs.pathExists away_file then .error (.trackingFileNotFound away_file)
      else if home_or_away == "both" then
        .ok (.both (fs.readCsv home_file) (fs.readCsv away_file))
      else if home_or_away == "home" then .ok (.single (fs.readCsv home_file))
      else if home_or_away == "away" then .ok (.single (fs.readCsv away_file))
      else .error .invalidHomeOrAway

/-- A two-frame first-half tracking grid used by the concrete examples. -/
def demoHome : List TrackRow := [⟨1, 0⟩, ⟨1, 10⟩]

/-- A tracking loader for the joiner examples: match 2 has tracking data,
every other match id raises (is `.error`). -/
def demoLoad : Nat → Except String (List TrackRow × List TrackRow) :=
  fun match_id => if match_id = 2 then .ok (demoHome, demoHome) else .error "missing"

/-- Joiner example event whose match's tracking load fails. -/
def demoEventBadMatch : Event := ⟨1, "TeamA", "1H", "00:00:01", 10⟩

/-- Joiner example event with an unrecognized period code. -/
def demoEventBadPeriod : Event := ⟨2, "TeamB", "XX", "00:00:01", 11⟩

/-- Joiner example event that aligns to the frame at time 0. -/
def demoEventGood : Event := ⟨2, "TeamB", "1H", "00:00:02", 12⟩

/-- Events of the synthetic single-match round-trip example: one match
(id 7), distinct event ids, both events align to frames of `demoHome`. -/
def roundtripEvents : List Event :=
  [⟨7, "TeamA", "1H", "00:00:02", 100⟩, ⟨7, "TeamA", "1H", "00:00:09", 101⟩]

/-- Tracking loader of the round-trip example: match 7 has identical home
and away grids. -/
def roundtripLoad : Nat → Except String (List TrackRow × List TrackRow) :=
  fun match_id => if match_id = 7 then .ok (demoHome, demoHome) else .error "missing"

/-- Events-table rows of the filter examples. -/
def ev1 : Event := ⟨1, "Germany", "1H", "00:01:00", 1⟩

/-- Second filter-example event (France, match 1). -/
def ev2 : Event := ⟨1, "France", "1H", "00:02:00", 2⟩

/-- Third filter-example event (France, match 2). -/
def ev3 : Event := ⟨2, "France", "1H", "00:03:00", 3⟩

/-- Fourth filter-example event (Spain, match 2). -/
def ev4 : Event := ⟨2, "Spain", "1H", "00:04:00", 4⟩

/-- Loader state of the filter examples: two matches in two competitions,
Germany plays only match 1. -/
def demoState : DataLoaderState :=
  ⟨[ev1, ev2, ev3, ev4], [(1, "H_EURO2024/match1"), (2, "Q_EURO2025/match2")]⟩

/-- State for the empty-team-string counterexample: Austria plays only
match 1, Belgium only match 2; "Austria" sorts first. -/
def cexState : DataLoaderState :=
  ⟨[⟨1, "Austria", "1H", "00:01:00", 1⟩, ⟨2, "Belgium", "1H", "00:02:00", 2⟩], []⟩

/-- A filesystem on which match 1's directory and both tracking files
exist. -/
def demoFS : FileSystem :=
  ⟨fun p => p ∈ (["data/H_EURO2024/match1", "data/H_EURO2024/match1/home.csv",
      "data/H_EURO2024/match1/away.csv"] : List String),
   fun p => if p = "data/H_EURO2024/match1/home.csv" then demoHome else [⟨1, 5⟩]⟩

/-- A filesystem on which match 1's directory and home file exist but the
away file is missing. -/
def demoFSNoAway : FileSystem :=
  ⟨fun p => p ∈ (["data/H_EURO2024/match1", "data/H_EURO2024/match1/home.csv"] : List String),
   fun _ => demoHome⟩

/-- The match-id-to-path table of the tracking-loader examples. -/
def demoTable : List (Nat × String) := [(1, "H_EURO2024/match1")]

theorem absQ_eq_abs (q : ℚ) : absQ q = |q| := by
  by_cases h : q < 0
  · rw [absQ, if_pos h, abs_of_neg h]
  · rw [absQ, if_neg h, abs_of_nonneg (le_of_not_lt h)]

theorem idxminAbs_first_min (t : ℚ) :
    ∀ (l : List TrackRow) (best : TrackRow),
      ∃ l1 l2, best :: l = l1 ++ idxminAbs t best l :: l2 ∧
        (∀ r ∈ best :: l,
          absQ ((idxminAbs t best l).time_passed_in_half - t) ≤
            absQ (r.time_passed_in_half - t)) ∧
        (∀ r ∈ l1,
          absQ ((idxminAbs t best l).time_passed_in_half - t) <
            absQ (r.time_passed_in_half - t)) := by
  intro l
  induction l with
  | nil =>
    intro best
    refine ⟨[], [], by simp [idxminAbs], ?_, by simp⟩
    intro r hr
    rcases List.mem_singleton.mp hr with h
    subst h
    simp [idxminAbs]
  | cons r rs ih =>
    intro best
    by_cases hc : absQ (r.time_passed_in_half - t) < absQ (best.time_passed_in_half - t)
    · have hstep : idxminAbs t best (r :: rs) = idxminAbs t r rs := by
        simp [idxminAbs, hc]
      obtain ⟨l1, l2, hsplit, hmin, hstrict⟩ := ih r
      refine ⟨best :: l1, l2, ?_, ?_, ?_⟩
      · rw [hstep, List.cons_append, ← hsplit]
      · intro x hx
        rw [hstep]
        rcases List.mem_cons.mp hx with h1 | h2
        · subst h1
          exact le_trans (hmin r (List.mem_cons_self r rs)) (le_of_lt hc)
        · exact hmin x h2
      · intro x hx
        rw [hstep]
        rcases List.mem_cons.mp hx with h1 | h2
        · subst h1
          exact lt_of_le_of_lt (hmin r (List.mem_cons_self r rs)) hc
        · exact hstrict x h2
    · have hstep : idxminAbs t best (r :: rs) = idxminAbs t best rs := by
        simp [idxminAbs, hc]
      have hle : absQ (best.time_passed_in_half - t) ≤ absQ (r.time_passed_in_half - t) :=
        le_of_not_lt hc
      obtain ⟨l1, l2, hsplit, hmin, hstrict⟩ := ih best
      cases l1 with
      | nil =>
        simp only [List.nil_append] at hsplit
        injection hsplit with hm hl2
        refine ⟨[], r :: rs, ?_, ?_, by simp⟩
        · rw [hstep, List.nil_append, ← hm]
        · intro x hx
          rw [hstep]
          rcases List.mem_cons.mp hx with h1 | h2
          · subst h1
            rw [← hm]
          · rcases List.mem_cons.mp h2 with h3 | h4
            · subst h3
              rw [← hm]
              exact hle
            · exact hmin x (List.mem_cons_of_mem best h4)
      | cons a l1t =>
        rw [List.cons_append] at hsplit
        injection hsplit with ha hrs
        have hb : best ∈ a :: l1t := by
          rw [ha]
          exact List.mem_cons_self _ _
        refine ⟨best :: r :: l1t, l2, ?_, ?_, ?_⟩
        · rw [hstep]
          simp only [List.cons_append]
          rw [← hrs]
        · intro x hx
          rw [hstep]
          rcases List.mem_cons.mp hx with h1 | h2
          · subst h1
            exact hmin x (List.mem_cons_self _ _)
          · rcases List.mem_cons.mp h2 with h3 | h4
            · subst h3
              exact le_trans (le_of_lt (hstrict best hb)) hle
            · exact hmin x (List.mem_cons_of_mem best h4)
        · intro x hx
          rw [hstep]
          rcases List.mem_cons.mp hx with h1 | h2
          · subst h1
            exact hstrict x hb
          · rcases List.mem_cons.mp h2 with h3 | h4
            · subst h3
              exact lt_of_lt_of_le (hstrict best hb) hle
            · exact hstrict x (List.mem_cons_of_mem a h4)

/-- C1: the nearest-frame lookup fails exactly when no row has the given
half; otherwise it returns the `time_passed_in_half` of the first row (in
table order) minimizing the absolute distance to the query time; on the
half-filtered table with times 10, 20, 35 and query time 22 it returns 20. -/
theorem timestamp_helper_nearest_spec (half : Nat) (time : ℚ) (tracking : List TrackRow) :
    (tracking.filter (fun r => r.half == half) = [] ↔
      timestamp_helper half time tracking = .error "No tracking data for the specified half.") ∧
    (∀ v, timestamp_helper half time tracking = .ok v →
      ∃ l1 m l2, tracking.filter (fun r => r.half == half) = l1 ++ m :: l2 ∧
        v = m.time_passed_in_half ∧
        (∀ r ∈ tracking.filter (fun r => r.half == half),
          |m.time_passed_in_half - time| ≤ |r.time_passed_in_half - time|) ∧
        (∀ r ∈ l1, |m.time_passed_in_half - time| < |r.time_passed_in_half - time|)) ∧
    timestamp_helper 1 22 [⟨1, 10⟩, ⟨1, 20⟩, ⟨1, 35⟩] = .ok 20 := by
  refine ⟨⟨fun hf => by simp [timestamp_helper, hf], fun he => ?_⟩, fun v hv => ?_, ?_⟩
  · by_contra hne
    obtain ⟨r, rs, hcons⟩ := List.exists_cons_of_ne_nil hne
    simp [timestamp_helper, hcons] at he
  · cases hfe : tracking.filter (fun r => r.half == half) with
    | nil => simp [timestamp_helper, hfe] at hv
    | cons r rs =>
      have hv2 : v = (idxminAbs time r rs).time_passed_in_half := by
        simp [timestamp_helper, hfe] at hv
        exact hv.symm
      obtain ⟨l1, l2, hsplit, hmin, hstrict⟩ := idxminAbs_first_min time rs r
      refine ⟨l1, idxminAbs time r rs, l2, hsplit, hv2, ?_, ?_⟩
      · intro x hx
        have := hmin x hx
        simpa [absQ_eq_abs] using this
      · intro x hx
        have := hstrict x hx
        simpa [absQ_eq_abs] using this
  · norm_num [timestamp_helper, idxminAbs, absQ, List.filter]

/-- C3: the period codes 1H, 2H, 1E, 2E, P map to halves 1..5, and every
other code maps to an absent half. -/
theorem matchPeriod_to_half_spec :
    matchPeriod_to_half "1H" = some 1 ∧ matchPeriod_to_half "2H" = some 2 ∧
    matchPeriod_to_half "1E" = some 3 ∧ matchPeriod_to_half "2E" = some 4 ∧
    matchPeriod_to_half "P" = some 5 ∧
    ∀ s : String, s ∉ (["1H", "2H", "1E", "2E", "P"] : List String) →
      matchPeriod_to_half s = none := by
  refine ⟨by decide, by decide, by decide, by decide, by decide, ?_⟩
  intro s hs
  simp only [List.mem_cons, List.not_mem_nil, or_false, not_or] at hs
  obtain ⟨h1, h2, h3, h4, h5⟩ := hs
  rw [matchPeriod_to_half, if_neg h1, if_neg h2, if_neg h3, if_neg h4, if_neg h5]

/-- C2: for an event with a recognized period code and a parsable
HH:MM:SS[.fff] timestamp, the aligner returns hours*3600 + minutes*60 +
seconds minus the fixed half offset (0, 45*60, 90*60, 105*60 and 0 seconds
for halves 1..5), passed through without clamping; "00:45:30" in half 2
yields 30, "01:30:00" in half 3 yields 0, and "00:30:00" in half 2 yields
the negative value -900. -/
theorem extract_half_and_time_spec :
    (∀ (e : Event) (hf : Nat) (p0 p1 p2 : List Char) (rest : List (List Char))
        (hh mm : ℤ) (ss : ℚ),
      matchPeriod_to_half e.matchPeriod = some hf →
      pySplit ':' e.matchTimestamp.data = p0 :: p1 :: p2 :: rest →
      pyIntChars p0 = some hh → pyIntChars p1 = some mm → pyFloatChars p2 = some ss →
      extract_half_and_time_passed_in_half e =
        some (some hf,
          ((hh : ℚ) * 3600 + (mm : ℚ) * 60 + ss) -
            (if hf = 2 then 45 else if hf = 3 then 90 else if hf = 4 then 105 else 0) * 60)) ∧
    extract_half_and_time_passed_in_half ⟨0, "", "2H", "00:45:30", 0⟩ = some (some 2, 30) ∧
    extract_half_and_time_passed_in_half ⟨0, "", "1E", "01:30:00", 0⟩ = some (some 3, 0) ∧
    extract_half_and_time_passed_in_half ⟨0, "", "2H", "00:30:00", 0⟩ = some (some 2, -900) := by
  have G : ∀ (e : Event) (hf : Nat) (p0 p1 p2 : List Char) (rest : List (List Char))
      (hh mm : ℤ) (ss : ℚ),
      matchPeriod_to_half e.matchPeriod = some hf →
      pySplit ':' e.matchTimestamp.data = p0 :: p1 :: p2 :: rest →
      pyIntChars p0 = some hh → pyIntChars p1 = some mm → pyFloatChars p2 = some ss →
      extract_half_and_time_passed_in_half e =
        some (some hf,
          ((hh : ℚ) * 3600 + (mm : ℚ) * 60 + ss) -
            (if hf = 2 then 45 else if hf = 3 then 90 else if hf = 4 then 105 else 0) * 60) := by
    intro e hf p0 p1 p2 rest hh mm ss hhalf hsplit h0 h1 h2
    have hc : convert_HHMMSS_to_secs e.matchTimestamp =
        some ((hh : ℚ) * 60 * 60 + (mm : ℚ) * 60 + ss) := by
      simp only [convert_HHMMSS_to_secs, hsplit, h0, h1, h2]
    simp only [extract_half_and_time_passed_in_half, hhalf, hc, Option.some.injEq,
      Prod.mk.injEq]
    refine ⟨by simp, ?_⟩
    split_ifs <;> ring_nf
  refine ⟨G, ?_, ?_, ?_⟩
  · have h := G ⟨0, "", "2H", "00:45:30", 0⟩ 2 ['0', '0'] ['4', '5'] ['3', '0'] [] 0 45 30
      (by decide) (by decide) (by decide) (by decide) (by decide)
    rw [h]
    norm_num
  · have h := G ⟨0, "", "1E", "01:30:00", 0⟩ 3 ['0', '1'] ['3', '0'] ['0', '0'] [] 1 30 0
      (by decide) (by decide) (by decide) (by decide) (by decide)
    rw [h]
    norm_num
  · have h := G ⟨0, "", "2H", "00:30:00", 0⟩ 2 ['0', '0'] ['3', '0'] ['0', '0'] [] 0 30 0
      (by decide) (by decide) (by decide) (by decide) (by decide)
    rw [h]
    norm_num

theorem extract_fst_eq_half (e : Event) (oh : Option Nat) (t : ℚ)
    (h : extract_half_and_time_passed_in_half e = some (oh, t)) :
    matchPeriod_to_half e.matchPeriod = oh := by
  simp only [extract_half_and_time_passed_in_half] at h
  split at h
  · simp at h
  · simp only [Option.some.injEq, Prod.mk.injEq] at h
    exact h.1

theorem process_event_some_spec (home away : List TrackRow) (e : Event)
    (pr : List TaggedRow × List TaggedRow)
    (h : process_event home away e = some pr) :
    matchPeriod_to_half e.matchPeriod ≠ none ∧
    (∀ r ∈ pr.1, r.event_id = e.eventId) ∧
    (∀ r ∈ pr.2, r.event_id = e.eventId) := by
  unfold process_event at h
  split at h
  · simp at h
  · simp at h
  · rename_i oh tp hf heq
    split at h
    · simp at h
    · split at h
      · simp at h
      · simp only [Option.some.injEq] at h
        subst h
        have hh := extract_fst_eq_half e _ _ heq
        refine ⟨by simp [hh], ?_, ?_⟩
        · intro r hr
          simp only [List.mem_map] at hr
          obtain ⟨x, hx, hxe⟩ := hr
          rw [← hxe]
        · intro r hr
          simp only [List.mem_map] at hr
          obtain ⟨x, hx, hxe⟩ := hr
          rw [← hxe]

theorem mem_process_match (load : Nat → Except String (List TrackRow × List TrackRow))
    (df : List Event) (mid : Nat) (pr : List TaggedRow × List TaggedRow)
    (h : pr ∈ process_match load df mid) :
    ∃ e ∈ df, e.matchId = mid ∧
      ∃ hm aw, load mid = .ok (hm, aw) ∧ process_event hm aw e = some pr := by
  unfold process_match at h
  split at h
  · simp at h
  · rename_i hm aw hl
    simp only [List.mem_filterMap] at h
    obtain ⟨e, hef, hpe⟩ := h
    rw [List.mem_filter] at hef
    exact ⟨e, hef.1, by simpa using hef.2, hm, aw, hl, hpe⟩

theorem joiner_mem_provenance (load : Nat → Except String (List TrackRow × List TrackRow))
    (df : List Event) (r : TaggedRow)
    (h : r ∈ (get_tracking_from_events_data load df).1 ∨
         r ∈ (get_tracking_from_events_data load df).2) :
    ∃ e ∈ df, r.event_id = e.eventId ∧ matchPeriod_to_half e.matchPeriod ≠ none ∧
      ∃ hw, load e.matchId = .ok hw := by
  unfold get_tracking_from_events_data at h
  split at h
  · simp at h
  · split at h
    · simp at h
    · have hmem : ∃ pr ∈ joiner_all_frames load df, r ∈ pr.1 ∨ r ∈ pr.2 := by
        rcases h with h1 | h2
        · simp only [List.mem_flatten, List.mem_map] at h1
          obtain ⟨l, ⟨pr, hpr, hl⟩, hrl⟩ := h1
          exact ⟨pr, hpr, Or.inl (hl ▸ hrl)⟩
        · simp only [List.mem_flatten, List.mem_map] at h2
          obtain ⟨l, ⟨pr, hpr, hl⟩, hrl⟩ := h2
          exact ⟨pr, hpr, Or.inr (hl ▸ hrl)⟩
      obtain ⟨pr, hprmem, hside⟩ := hmem
      unfold joiner_all_frames at hprmem
      simp only [List.mem_flatten, List.mem_map] at hprmem
      obtain ⟨l, ⟨mid, hmid, hl⟩, hprl⟩ := hprmem
      have hpm : pr ∈ process_match load df mid := hl ▸ hprl
      obtain ⟨e, hedf, heid, hm, aw, hload, hpe⟩ := mem_process_match load df mid pr hpm
      obtain ⟨hhalf, h1, h2⟩ := process_event_some_spec hm aw e pr hpe
      refine ⟨e, hedf, ?_, hhalf, ⟨(hm, aw), by rw [heid]; exact hload⟩⟩
      rcases hside with hs | hs
      · exact h1 r hs
      · exact h2 r hs

/-- C4: the joiner never aborts on per-item failures -- it returns two empty
tables on empty input; every output row stems from an event whose period
code is recognized and whose match's tracking load succeeded (so
unrecognized-period events and failing matches contribute nothing); and on a
mixed input (one event whose match load fails, one with an unknown period
code, one good event) it still produces the good event's frames. -/
theorem joiner_skip_spec :
    (∀ load, get_tracking_from_events_data load [] = ([], [])) ∧
    (∀ load df (r : TaggedRow), r ∈ (get_tracking_from_events_data load df).1 →
      ∃ e ∈ df, r.event_id = e.eventId ∧ matchPeriod_to_half e.matchPeriod ≠ none ∧
        ∃ hw, load e.matchId = .ok hw) ∧
    (∀ load df (r : TaggedRow), r ∈ (get_tracking_from_events_data load df).2 →
      ∃ e ∈ df, r.event_id = e.eventId ∧ matchPeriod_to_half e.matchPeriod ≠ none ∧
        ∃ hw, load e.matchId = .ok hw) ∧
    get_tracking_from_events_data demoLoad
        [demoEventBadMatch, demoEventBadPeriod, demoEventGood] =
      ([⟨⟨1, 0⟩, 12⟩], [⟨⟨1, 0⟩, 12⟩]) := by
  refine ⟨fun load => rfl,
    fun load df r hr => joiner_mem_provenance load df r (Or.inl hr),
    fun load df r hr => joiner_mem_provenance load df r (Or.inr hr), ?_⟩
  have hc1 : convert_HHMMSS_to_secs "00:00:01" = some 1 := by
    have hs : pySplit ':' "00:00:01".data = [['0', '0'], ['0', '0'], ['0', '1']] := by decide
    have h0 : pyIntChars ['0', '0'] = some 0 := by decide
    have h2 : pyFloatChars ['0', '1'] = some 1 := by decide
    simp only [convert_HHMMSS_to_secs, hs, h0, h2]
    norm_num
  have hc2 : convert_HHMMSS_to_secs "00:00:02" = some 2 := by
    have hs : pySplit ':' "00:00:02".data = [['0', '0'], ['0', '0'], ['0', '2']] := by decide
    have h0 : pyIntChars ['0', '0'] = some 0 := by decide
    have h2 : pyFloatChars ['0', '2'] = some 2 := by decide
    simp only [convert_HHMMSS_to_secs, hs, h0, h2]
    norm_num
  have hxbad : extract_half_and_time_passed_in_half demoEventBadPeriod = some (none, 1) := by
    have hm : matchPeriod_to_half "XX" = none := by decide
    simp only [demoEventBadPeriod, extract_half_and_time_passed_in_half, hm, hc1]
    simp
  have hxgood : extract_half_and_time_passed_in_half demoEventGood = some (some 1, 2) := by
    have hm : matchPeriod_to_half "1H" = some 1 := by decide
    simp only [demoEventGood, extract_half_and_time_passed_in_half, hm, hc2]
    norm_num
  have hts : timestamp_helper 1 2 demoHome = .ok 0 := by
    norm_num [timestamp_helper, idxminAbs, absQ, demoHome, List.filter]
  have hpbad : process_event demoHome demoHome demoEventBadPeriod = none := by
    simp only [process_event, hxbad]
  have hpgood : process_event demoHome demoHome demoEventGood =
      some ([⟨⟨1, 0⟩, 12⟩], [⟨⟨1, 0⟩, 12⟩]) := by
    have hsf : select_frame demoHome 1 0 = [⟨1, 0⟩] := by decide
    simp only [process_event, hxgood, hts, hsf]
    simp [demoEventGood]
  have hload1 : demoLoad 1 = .error "missing" := rfl
  have hload2 : demoLoad 2 = .ok (demoHome, demoHome) := rfl
  have hpm1 : process_match demoLoad
      [demoEventBadMatch, demoEventBadPeriod, demoEventGood] 1 = [] := by
    simp only [process_match, hload1]
  have hfil : [demoEventBadMatch, demoEventBadPeriod, demoEventGood].filter
      (fun e => e.matchId == 2) = [demoEventBadPeriod, demoEventGood] := by decide
  have hpm2 : process_match demoLoad
      [demoEventBadMatch, demoEventBadPeriod, demoEventGood] 2 =
      [([⟨⟨1, 0⟩, 12⟩], [⟨⟨1, 0⟩, 12⟩])] := by
    simp only [process_match, hload2, hfil, List.filterMap_cons, hpbad, hpgood,
      List.filterMap_nil]
  have hudf : uniqueFirst ([demoEventBadMatch, demoEventBadPeriod,
      demoEventGood].map (fun e => e.matchId)) = [1, 2] := by decide
  have haf : joiner_all_frames demoLoad
      [demoEventBadMatch, demoEventBadPeriod, demoEventGood] =
      [([⟨⟨1, 0⟩, 12⟩], [⟨⟨1, 0⟩, 12⟩])] := by
    unfold joiner_all_frames
    rw [hudf]
    simp [hpm1, hpm2]
  simp only [get_tracking_from_events_data, haf]
  simp

theorem uniqueFirst_foldl_general {α : Type} [DecidableEq α] :
    ∀ (xs acc : List α),
      xs.foldl (fun acc x => if x ∈ acc then acc else acc ++ [x]) acc =
        acc ++ firstUniques (xs.filter (fun y => decide (y ∉ acc))) := by
  intro xs
  induction xs with
  | nil => intro acc; simp [firstUniques]
  | cons x rest ih =>
    intro acc
    simp only [List.foldl_cons]
    by_cases hx : x ∈ acc
    · rw [if_pos hx, ih acc]
      have hcond : (decide (x ∉ acc)) = false := by simp [hx]
      rw [List.filter_cons, hcond]
      simp only [Bool.false_eq_true, if_false]
    · rw [if_neg hx, ih (acc ++ [x])]
      have hcond : (decide (x ∉ acc)) = true := by simp [hx]
      rw [List.filter_cons, hcond, if_pos rfl]
      rw [firstUniques]
      have hpred : ∀ y,
          (decide (y ∉ acc ++ [x])) =
            ((fun z => decide (z ≠ x)) y && (fun z => decide (z ∉ acc)) y) := by
        intro y
        by_cases h1 : y = x <;> by_cases h2 : y ∈ acc <;> simp [h1, h2]
      have hfil : rest.filter (fun y => decide (y ∉ acc ++ [x])) =
          (rest.filter (fun y => decide (y ∉ acc))).filter (fun y => decide (y ≠ x)) := by
        rw [List.filter_filter]
        exact List.filter_congr (fun y _ => hpred y)
      rw [hfil]
      simp [List.append_assoc]

theorem uniqueFirst_eq_firstUniques {α : Type} [DecidableEq α] (xs : List α) :
    uniqueFirst xs = firstUniques xs := by
  rw [uniqueFirst, uniqueFirst_foldl_general xs []]
  simp

theorem mem_firstUniques {α : Type} [DecidableEq α] (xs : List α) (a : α) :
    a ∈ firstUniques xs ↔ a ∈ xs := by
  have key : ∀ (n : Nat) (l : List α), l.length = n → (a ∈ firstUniques l ↔ a ∈ l) := by
    intro n
    induction n using Nat.strong_induction_on with
    | _ n ih =>
      intro l hxl
      cases l with
      | nil => simp [firstUniques]
      | cons x rest =>
        rw [firstUniques]
        have hlen : (rest.filter (fun y => decide (y ≠ x))).length < n := by
          rw [← hxl]
          simp only [List.length_cons]
          exact Nat.lt_succ_of_le (List.length_filter_le _ _)
        constructor
        · intro h
          rcases List.mem_cons.mp h with h1 | h2
          · exact h1 ▸ List.mem_cons_self _ _
          · have hm := (ih _ hlen _ rfl).mp h2
            exact List.mem_cons_of_mem x (List.mem_filter.mp hm).1
        · intro h
          rcases List.mem_cons.mp h with h1 | h2
          · exact h1 ▸ List.mem_cons_self _ _
          · by_cases hax : a = x
            · exact hax ▸ List.mem_cons_self _ _
            · refine List.mem_cons_of_mem x ?_
              exact (ih _ hlen _ rfl).mpr (List.mem_filter.mpr ⟨h2, by simp [hax]⟩)
  exact key xs.length xs rfl

theorem nodup_firstUniques {α : Type} [DecidableEq α] (xs : List α) :
    (firstUniques xs).Nodup := by
  have key : ∀ (n : Nat) (l : List α), l.length = n → (firstUniques l).Nodup := by
    intro n
    induction n using Nat.strong_induction_on with
    | _ n ih =>
      intro l hxl
      cases l with
      | nil => simp [firstUniques]
      | cons x rest =>
        rw [firstUniques]
        have hlen : (rest.filter (fun y => decide (y ≠ x))).length < n := by
          rw [← hxl]
          simp only [List.length_cons]
          exact Nat.lt_succ_of_le (List.length_filter_le _ _)
        rw [List.nodup_cons]
        refine ⟨?_, ih _ hlen _ rfl⟩
        intro hmem
        have h1 := (mem_firstUniques _ x).mp hmem
        have h2 := (List.mem_filter.mp h1).2
        simp at h2
  exact key xs.length xs rfl

theorem sublist_firstUniques {α : Type} [DecidableEq α] (xs : List α) :
    (firstUniques xs).Sublist xs := by
  have key : ∀ (n : Nat) (l : List α), l.length = n → (firstUniques l).Sublist l := by
    intro n
    induction n using Nat.strong_induction_on with
    | _ n ih =>
      intro l hxl
      cases l with
      | nil => simp [firstUniques]
      | cons x rest =>
        rw [firstUniques]
        have hlen : (rest.filter (fun y => decide (y ≠ x))).length < n := by
          rw [← hxl]
          simp only [List.length_cons]
          exact Nat.lt_succ_of_le (List.length_filter_le _ _)
        exact List.Sublist.cons₂ x ((ih _ hlen _ rfl).trans (List.filter_sublist rest))
  exact key xs.length xs rfl

theorem uniqueFirst_const {α : Type} [DecidableEq α] (xs : List α) (m : α)
    (hne : xs ≠ []) (hall : ∀ x ∈ xs, x = m) : uniqueFirst xs = [m] := by
  rw [uniqueFirst_eq_firstUniques]
  cases xs with
  | nil => exact absurd rfl hne
  | cons x rest =>
    rw [firstUniques]
    have hx : x = m := hall x (List.mem_cons_self _ _)
    have hre : rest.filter (fun y => decide (y ≠ x)) = [] := by
      rw [List.filter_eq_nil_iff]
      intro y hy
      simp [hall y (List.mem_cons_of_mem x hy), hx]
    rw [hre, hx]
    simp [firstUniques]

theorem select_frame_length_le_one (l : List TrackRow)
    (hnd : (l.map (fun r => (r.half, r.time_passed_in_half))).Nodup)
    (hf : Nat) (ct : ℚ) : (select_frame l hf ct).length ≤ 1 := by
  induction l with
  | nil => simp [select_frame]
  | cons r rs ih =>
    simp only [List.map_cons, List.nodup_cons] at hnd
    obtain ⟨hnotin, hnd2⟩ := hnd
    by_cases hp : (r.half = hf ∧ r.time_passed_in_half = ct)
    · have hstep : select_frame (r :: rs) hf ct = r :: select_frame rs hf ct := by
        simp [select_frame, List.filter_cons, hp]
      have hempty : select_frame rs hf ct = [] := by
        rw [select_frame, List.filter_eq_nil_iff]
        intro x hx
        simp only [decide_eq_true_eq, not_and]
        intro hx1 hx2
        exact absurd (List.mem_map.mpr ⟨x, hx, by rw [hx1, hx2, hp.1, hp.2]⟩) hnotin
      rw [hstep, hempty]
      simp
    · have hstep : select_frame (r :: rs) hf ct = select_frame rs hf ct := by
        simp [select_frame, List.filter_cons, hp]
      rw [hstep]
      exact ih hnd2

theorem process_event_singleton_ids (home away : List TrackRow) (e : Event)
    (hgrid : home.map (fun r => (r.half, r.time_passed_in_half)) =
             away.map (fun r => (r.half, r.time_passed_in_half)))
    (hnodup : (home.map (fun r => (r.half, r.time_passed_in_half))).Nodup)
    (pr : List TaggedRow × List TaggedRow)
    (h : process_event home away e = some pr) :
    pr.1.map (fun r => r.event_id) = [e.eventId] ∧
    pr.2.map (fun r => r.event_id) = [e.eventId] := by
  unfold process_event at h
  split at h
  · simp at h
  · simp at h
  · rename_i oh tp hf heq
    split at h
    · simp at h
    · rename_i ct hts
      split at h
      · simp at h
      · rename_i hcond
        simp only [Option.some.injEq] at h
        subst h
        simp only [Bool.or_eq_true, not_or, Bool.not_eq_true] at hcond
        have hanodup : (away.map (fun r => (r.half, r.time_passed_in_half))).Nodup :=
          hgrid ▸ hnodup
        have hh : (select_frame home tp ct).length ≤ 1 :=
          select_frame_length_le_one home hnodup tp ct
        have ha : (select_frame away tp ct).length ≤ 1 :=
          select_frame_length_le_one away hanodup tp ct
        have hhne : select_frame home tp ct ≠ [] := by
          intro hcontra
          rw [hcontra] at hcond
          simp at hcond
        have hane : select_frame away tp ct ≠ [] := by
          intro hcontra
          rw [hcontra] at hcond
          simp at hcond
        have hh1 : (select_frame home tp ct).length = 1 :=
          Nat.le_antisymm hh (Nat.one_le_iff_ne_zero.mpr (by
            simpa [List.length_eq_zero] using hhne))
        have ha1 : (select_frame away tp ct).length = 1 :=
          Nat.le_antisymm ha (Nat.one_le_iff_ne_zero.mpr (by
            simpa [List.length_eq_zero] using hane))
        obtain ⟨rh, hrh⟩ := List.length_eq_one.mp hh1
        obtain ⟨ra, hra⟩ := List.length_eq_one.mp ha1
        constructor
        · simp [hrh]
        · simp [hra]

theorem filterMap_process_ids (home away : List TrackRow)
    (hgrid : home.map (fun r => (r.half, r.time_passed_in_half)) =
             away.map (fun r => (r.half, r.time_passed_in_half)))
    (hnodup : (home.map (fun r => (r.half, r.time_passed_in_half))).Nodup) :
    ∀ (events : List Event),
      ((((events.filterMap (process_event home away)).map Prod.fst).flatten.map
          (fun r => r.event_id)) =
        (((events.filterMap (process_event home away)).map Prod.snd).flatten.map
          (fun r => r.event_id))) ∧
      ((((events.filterMap (process_event home away)).map Prod.fst).flatten.map
          (fun r => r.event_id)).Sublist (events.map (fun e => e.eventId))) := by
  intro events
  induction events with
  | nil => simp
  | cons e es ih =>
    cases hp : process_event home away e with
    | none =>
      rw [List.filterMap_cons_none hp]
      exact ⟨ih.1, ih.2.trans (List.sublist_cons_self _ _)⟩
    | some pr =>
      rw [List.filterMap_cons_some hp]
      obtain ⟨hfst, hsnd⟩ := process_event_singleton_ids home away e hgrid hnodup pr hp
      simp only [List.map_cons, List.flatten_cons, List.map_append, hfst, hsnd,
        List.map_cons]
      exact ⟨by rw [ih.1], List.Sublist.cons₂ _ ih.2⟩

/-- C5: for a single synthetic match whose home and away tracking tables
share the same (half, time_passed_in_half) grid with unique pairs (and
distinct event ids, as in the synthetic setup), every event id appearing in
the home tracking output of the joiner appears exactly once in the away
tracking output. -/
theorem joiner_roundtrip_ids
    (load : Nat → Except String (List TrackRow × List TrackRow))
    (df : List Event) (m : Nat) (home away : List TrackRow)
    (hmatch : ∀ e ∈ df, e.matchId = m)
    (hload : load m = .ok (home, away))
    (hids : (df.map (fun e => e.eventId)).Nodup)
    (hgrid : home.map (fun r => (r.half, r.time_passed_in_half)) =
             away.map (fun r => (r.half, r.time_passed_in_half)))
    (hnodup : (home.map (fun r => (r.half, r.time_passed_in_half))).Nodup) :
    ∀ id, id ∈ (get_tracking_from_events_data load df).1.map (fun r => r.event_id) →
      ((get_tracking_from_events_data load df).2.map (fun r => r.event_id)).count id = 1 := by
  intro id hid
  by_cases hemp : df.isEmpty
  · have hz : get_tracking_from_events_data load df = ([], []) := by
      unfold get_tracking_from_events_data
      rw [if_pos hemp]
    rw [hz] at hid
    simp at hid
  · have hdfne : df ≠ [] := by simpa [List.isEmpty_iff] using hemp
    have hone : uniqueFirst (df.map (fun e => e.matchId)) = [m] := by
      apply uniqueFirst_const
      · simpa using hdfne
      · intro x hx
        rw [List.mem_map] at hx
        obtain ⟨e, he, rfl⟩ := hx
        exact hmatch e he
    have hfiltself : df.filter (fun e => e.matchId == m) = df := by
      rw [List.filter_eq_self]
      intro e he
      simp [hmatch e he]
    have haf : joiner_all_frames load df = df.filterMap (process_event home away) := by
      unfold joiner_all_frames process_match
      rw [hone]
      simp only [List.map_cons, List.map_nil, List.flatten_cons, List.flatten_nil,
        List.append_nil, hload, hfiltself]
    by_cases hfe : (joiner_all_frames load df).isEmpty
    · have hz : get_tracking_from_events_data load df = ([], []) := by
        unfold get_tracking_from_events_data
        rw [if_neg hemp, if_pos hfe]
      rw [hz] at hid
      simp at hid
    · have hout : get_tracking_from_events_data load df =
          (((joiner_all_frames load df).map Prod.fst).flatten,
           ((joiner_all_frames load df).map Prod.snd).flatten) := by
        unfold get_tracking_from_events_data
        rw [if_neg hemp, if_neg hfe]
      rw [hout] at hid
      rw [hout]
      obtain ⟨heq, hsub⟩ := filterMap_process_ids home away hgrid hnodup df
      rw [haf] at hid ⊢
      simp only at hid ⊢
      rw [← heq]
      have hnd : (((df.filterMap (process_event home away)).map Prod.fst).flatten.map
          (fun r => r.event_id)).Nodup := hsub.nodup hids
      exact List.count_eq_one_of_mem hnd hid

/-- Witness for the round-trip theorem: the concrete synthetic match 7 with
identical two-frame home/away grids and two events with ids 100 and 101. -/
theorem joiner_roundtrip_ids_witness :
    ((get_tracking_from_events_data roundtripLoad roundtripEvents).2.map
      (fun r => r.event_id)).count 100 = 1 := by
  have hload7 : roundtripLoad 7 = Except.ok (demoHome, demoHome) := rfl
  have hc2 : convert_HHMMSS_to_secs "00:00:02" = some 2 := by
    have hs : pySplit ':' "00:00:02".data = [['0', '0'], ['0', '0'], ['0', '2']] := by decide
    have h0 : pyIntChars ['0', '0'] = some 0 := by decide
    have h2 : pyFloatChars ['0', '2'] = some 2 := by decide
    simp only [convert_HHMMSS_to_secs, hs, h0, h2]
    norm_num
  have hc9 : convert_HHMMSS_to_secs "00:00:09" = some 9 := by
    have hs : pySplit ':' "00:00:09".data = [['0', '0'], ['0', '0'], ['0', '9']] := by decide
    have h0 : pyIntChars ['0', '0'] = some 0 := by decide
    have h2 : pyFloatChars ['0', '9'] = some 9 := by decide
    simp only [convert_HHMMSS_to_secs, hs, h0, h2]
    norm_num
  have hm1 : matchPeriod_to_half "1H" = some 1 := by decide
  have hx1 : extract_half_and_time_passed_in_half ⟨7, "TeamA", "1H", "00:00:02", 100⟩ =
      some (some 1, 2) := by
    simp only [extract_half_and_time_passed_in_half, hm1, hc2]
    norm_num
  have hx2 : extract_half_and_time_passed_in_half ⟨7, "TeamA", "1H", "00:00:09", 101⟩ =
      some (some 1, 9) := by
    simp only [extract_half_and_time_passed_in_half, hm1, hc9]
    norm_num
  have hts1 : timestamp_helper 1 2 demoHome = .ok 0 := by
    norm_num [timestamp_helper, idxminAbs, absQ, demoHome, List.filter]
  have hts2 : timestamp_helper 1 9 demoHome = .ok 10 := by
    norm_num [timestamp_helper, idxminAbs, absQ, demoHome, List.filter]
  have hsf0 : select_frame demoHome 1 0 = [⟨1, 0⟩] := by decide
  have hsf10 : select_frame demoHome 1 10 = [⟨1, 10⟩] := by decide
  have hp1 : process_event demoHome demoHome ⟨7, "TeamA", "1H", "00:00:02", 100⟩ =
      some ([⟨⟨1, 0⟩, 100⟩], [⟨⟨1, 0⟩, 100⟩]) := by
    simp only [process_event, hx1, hts1, hsf0]
    simp
  have hp2 : process_event demoHome demoHome ⟨7, "TeamA", "1H", "00:00:09", 101⟩ =
      some ([⟨⟨1, 10⟩, 101⟩], [⟨⟨1, 10⟩, 101⟩]) := by
    simp only [process_event, hx2, hts2, hsf10]
    simp
  have hu : uniqueFirst (roundtripEvents.map (fun e => e.matchId)) = [7] := by decide
  have hfil : roundtripEvents.filter (fun e => e.matchId == 7) = roundtripEvents := by decide
  have hpm : process_match roundtripLoad roundtripEvents 7 =
      [([⟨⟨1, 0⟩, 100⟩], [⟨⟨1, 0⟩, 100⟩]), ([⟨⟨1, 10⟩, 101⟩], [⟨⟨1, 10⟩, 101⟩])] := by
    simp only [process_match, hload7]
    rw [hfil]
    simp only [roundtripEvents, List.filterMap_cons, hp1, hp2, List.filterMap_nil]
  have haf : joiner_all_frames roundtripLoad roundtripEvents =
      [([⟨⟨1, 0⟩, 100⟩], [⟨⟨1, 0⟩, 100⟩]), ([⟨⟨1, 10⟩, 101⟩], [⟨⟨1, 10⟩, 101⟩])] := by
    unfold joiner_all_frames
    rw [hu]
    simp [hpm]
  have hout : get_tracking_from_events_data roundtripLoad roundtripEvents =
      ([⟨⟨1, 0⟩, 100⟩, ⟨⟨1, 10⟩, 101⟩], [⟨⟨1, 0⟩, 100⟩, ⟨⟨1, 10⟩, 101⟩]) := by
    simp only [get_tracking_from_events_data, haf]
    simp [roundtripEvents]
  exact joiner_roundtrip_ids roundtripLoad roundtripEvents 7 demoHome demoHome
    (by decide) hload7 (by decide) rfl (by decide) 100 (by rw [hout]; decide)

/-- C8: with no competition or team filter, the max-matches filter retains
exactly the events whose match id is among the first n distinct match ids in
order of first appearance (`firstUniques` spells out "first occurrence
order": keep the head, drop its later duplicates, recurse; it is duplicate
free, has the same members as the input, and is a subsequence of it). -/
theorem max_matches_filter_spec (st : DataLoaderState) (n : Nat) :
    load_event_matches st none none (some n) =
      .ok (st.events_df.filter
        (fun e => ((firstUniques (st.events_df.map (fun x => x.matchId))).take n).contains
          e.matchId)) ∧
    uniqueFirst (st.events_df.map (fun x => x.matchId)) =
      firstUniques (st.events_df.map (fun x => x.matchId)) ∧
    (firstUniques (st.events_df.map (fun x => x.matchId))).Nodup ∧
    (∀ m, m ∈ firstUniques (st.events_df.map (fun x => x.matchId)) ↔
      m ∈ st.events_df.map (fun x => x.matchId)) ∧
    (firstUniques (st.events_df.map (fun x => x.matchId))).Sublist
      (st.events_df.map (fun x => x.matchId)) := by
  have hequ := uniqueFirst_eq_firstUniques (st.events_df.map (fun x => x.matchId))
  refine ⟨?_, hequ, nodup_firstUniques _, fun m => mem_firstUniques _ m,
    sublist_firstUniques _⟩
  simp only [load_event_matches, truthy, Bool.false_eq_true, if_false]
  rw [hequ]

theorem team_step_mem (df1 : List Event) (mt : String) (e : Event) :
    e ∈ df1.filter (fun x =>
        (uniqueFirst ((df1.filter (fun y => y.teamName == mt)).map
          (fun y => y.matchId))).contains x.matchId) ↔
      e ∈ df1 ∧ ∃ e2, e2 ∈ df1 ∧ e2.teamName = mt ∧ e2.matchId = e.matchId := by
  rw [List.mem_filter]
  constructor
  · rintro ⟨hdf, hcon⟩
    refine ⟨hdf, ?_⟩
    have hm : e.matchId ∈ uniqueFirst ((df1.filter (fun y => y.teamName == mt)).map
        (fun y => y.matchId)) := List.elem_iff.mp hcon
    rw [uniqueFirst_eq_firstUniques, mem_firstUniques, List.mem_map] at hm
    obtain ⟨e2, he2, heq⟩ := hm
    rw [List.mem_filter] at he2
    exact ⟨e2, he2.1, by simpa using he2.2, heq⟩
  · rintro ⟨hdf, e2, he2, hteam, hmid⟩
    refine ⟨hdf, List.elem_iff.mpr ?_⟩
    rw [uniqueFirst_eq_firstUniques, mem_firstUniques, List.mem_map]
    exact ⟨e2, List.mem_filter.mpr ⟨he2, by simp [hteam]⟩, hmid⟩

/-- C7 (amended): a non-empty competition argument outside the three known
values fails with the invalid-competition error, and a known competition
returns exactly the events whose match id maps in the static table to a path
starting with the competition name; an empty competition string (falsy in
Python) disables the filter instead of failing, so the original claim's
"every argument outside the known values fails" holds only for non-empty
arguments. -/
theorem competition_filter_spec (st : DataLoaderState) (c : String) :
    (c ≠ "" → c ∉ get_competitions →
      load_event_matches st (some c) none none = .error .invalidCompetition) ∧
    (c ∈ get_competitions →
      ∃ out, load_event_matches st (some c) none none = .ok out ∧
        ∀ e, e ∈ out ↔ e ∈ st.events_df ∧
          ∃ p, (e.matchId, p) ∈ st.match_id_to_path ∧ startsWithStr p c = true) ∧
    load_event_matches demoState (some "H_EURO2024") none none = .ok [ev1, ev2] ∧
    load_event_matches demoState (some "Bogus") none none = .error .invalidCompetition := by
  refine ⟨?_, ?_, rfl, rfl⟩
  · intro hne hnotin
    have ht : truthy (some c) = true := by simp [truthy, hne]
    have hcon : get_competitions.contains c = false := by
      rw [Bool.eq_false_iff]
      intro hc
      exact hnotin (List.elem_iff.mp hc)
    simp only [load_event_matches, ht, if_true, Option.getD_some, hcon,
      Bool.false_eq_true, if_false]
  · intro hc
    have hne : c ≠ "" := by
      intro h
      subst h
      exact absurd hc (by decide)
    have ht : truthy (some c) = true := by simp [truthy, hne]
    have hcon : get_competitions.contains c = true := List.elem_iff.mpr hc
    refine ⟨st.events_df.filter
      (fun e => (competition_matches st.match_id_to_path c).contains e.matchId), ?_, ?_⟩
    · have htn : truthy none = false := rfl
      simp only [load_event_matches, ht, if_true, Option.getD_some, hcon, htn,
        Bool.false_eq_true, if_false]
    · intro e
      rw [List.mem_filter]
      constructor
      · rintro ⟨hdf, hcon2⟩
        refine ⟨hdf, ?_⟩
        have hm := List.elem_iff.mp hcon2
        rw [competition_matches, List.mem_map] at hm
        obtain ⟨pr, hpr, heq⟩ := hm
        rw [List.mem_filter] at hpr
        exact ⟨pr.2, by rw [← heq]; exact hpr.1, hpr.2⟩
      · rintro ⟨hdf, p, hp, hst⟩
        refine ⟨hdf, List.elem_iff.mpr ?_⟩
        rw [competition_matches, List.mem_map]
        exact ⟨(e.matchId, p), List.mem_filter.mpr ⟨hp, hst⟩, rfl⟩

/-- C7 counterexample: the empty string is not among the three known
competitions, yet filtering with it does not raise -- Python truthiness
skips the competition filter entirely and all events are returned. -/
theorem competition_filter_counterexample :
    ("" ∉ get_competitions) ∧
    load_event_matches demoState (some "") none none = .ok demoState.events_df := by
  exact ⟨by decide, rfl⟩

/-- C6 (amended): for a non-empty team prefix, the filter resolves the
prefix against the team list scoped to the applied competition filter (the
global team list with no competition), fails with the team-not-found error
when no team name starts with the prefix, and otherwise uses only the first
matching team and retains exactly the events of every match that team
played, from both sides; team "Ger" matches "Germany" and returns both
sides of Germany's match.  An empty team string (falsy in Python) disables
the filter instead, so the original claim holds only for non-empty
prefixes. -/
theorem team_filter_spec (st : DataLoaderState) (t : String) :
    (t ≠ "" →
      ((get_all_teams st).filter (fun s => startsWithStr s t) = [] →
        load_event_matches st none (some t) none = .error .teamNotFound) ∧
      (∀ mt rest, (get_all_teams st).filter (fun s => startsWithStr s t) = mt :: rest →
        ∃ out, load_event_matches st none (some t) none = .ok out ∧
          ∀ e, e ∈ out ↔ e ∈ st.events_df ∧
            ∃ e2, e2 ∈ st.events_df ∧ e2.teamName = mt ∧ e2.matchId = e.matchId)) ∧
    (∀ c, c ∈ get_competitions → t ≠ "" →
      ((get_teams_by_competition st c).filter (fun s => startsWithStr s t) = [] →
        load_event_matches st (some c) (some t) none = .error .teamNotFound) ∧
      (∀ mt rest,
        (get_teams_by_competition st c).filter (fun s => startsWithStr s t) = mt :: rest →
        ∃ out, load_event_matches st (some c) (some t) none = .ok out ∧
          ∀ e, e ∈ out ↔
            e ∈ st.events_df.filter (fun x =>
              (competition_matches st.match_id_to_path c).contains x.matchId) ∧
            ∃ e2, e2 ∈ st.events_df.filter (fun x =>
              (competition_matches st.match_id_to_path c).contains x.matchId) ∧
              e2.teamName = mt ∧ e2.matchId = e.matchId)) ∧
    load_event_matches demoState none (some "Ger") none = .ok [ev1, ev2] := by
  refine ⟨?_, ?_, rfl⟩
  · intro hne
    have ht : truthy (some t) = true := by simp [truthy, hne]
    have htn : truthy none = false := rfl
    constructor
    · intro hfil
      simp only [load_event_matches, htn, Bool.false_eq_true, if_false, ht, if_true,
        Option.getD_some, hfil]
    · intro mt rest hfil
      refine ⟨st.events_df.filter (fun x =>
        (uniqueFirst ((st.events_df.filter (fun y => y.teamName == mt)).map
          (fun y => y.matchId))).contains x.matchId), ?_, ?_⟩
      · simp only [load_event_matches, htn, Bool.false_eq_true, if_false, ht, if_true,
          Option.getD_some, hfil]
      · intro e
        exact team_step_mem st.events_df mt e
  · intro c hc hne
    have hcne : c ≠ "" := by
      intro h
      subst h
      exact absurd hc (by decide)
    have htc : truthy (some c) = true := by simp [truthy, hcne]
    have ht : truthy (some t) = true := by simp [truthy, hne]
    have hcon : get_competitions.contains c = true := List.elem_iff.mpr hc
    constructor
    · intro hfil
      simp only [load_event_matches, htc, if_true, Option.getD_some, hcon, ht, hfil]
    · intro mt rest hfil
      refine ⟨(st.events_df.filter (fun x =>
          (competition_matches st.match_id_to_path c).contains x.matchId)).filter
          (fun x => (uniqueFirst (((st.events_df.filter (fun y =>
            (competition_matches st.match_id_to_path c).contains y.matchId)).filter
              (fun y => y.teamName == mt)).map (fun y => y.matchId))).contains x.matchId),
          ?_, ?_⟩
      · simp only [load_event_matches, htc, if_true, Option.getD_some, hcon, ht, hfil]
      · intro e
        exact team_step_mem (st.events_df.filter (fun x =>
          (competition_matches st.match_id_to_path c).contains x.matchId)) mt e

/-- C6 counterexample: with the empty prefix every team name matches and the
first matching team is "Austria", which plays only match 1; the original
claim then demands exactly match 1's events, but the empty string is falsy
in Python, the filter is skipped, and match 2's Belgium event is returned
too. -/
theorem team_filter_counterexample :
    ((get_all_teams cexState).filter (fun s => startsWithStr s "") =
      ["Austria", "Belgium"]) ∧
    (∀ e ∈ cexState.events_df, e.teamName = "Austria" → e.matchId = 1) ∧
    (∃ e ∈ cexState.events_df, e.matchId = 2) ∧
    load_event_matches cexState none (some "") none = .ok cexState.events_df := by
  exact ⟨by decide, by decide, by decide, rfl⟩

/-- C9: load_tracking fails with the unknown-match error when the match id
is not in the static table; with the missing-directory error when the
match's directory does not exist; with the missing-file error when an
expected per-side tracking file does not exist (home checked first, then
away, whatever the side argument); and for a known match with both per-side
files present, side "both" returns the home/away pair, "home"/"away" the
single table, and any other side value fails with the invalid-side error.
Concrete instances on one-match filesystems close the theorem. -/
theorem load_tracking_data_errors_spec (fs : FileSystem)
    (table : List (Nat × String)) (data_path : String) (match_id : Nat)
    (home_or_away : String) :
    (table.lookup match_id = none →
      load_tracking_data fs table data_path match_id home_or_away =
        .error (.matchIdNotFound match_id)) ∧
    (∀ rel, table.lookup match_id = some rel →
      fs.pathExists (data_path ++ "/" ++ rel) = false →
      load_tracking_data fs table data_path match_id home_or_away =
        .error (.matchDirectoryNotFound (data_path ++ "/" ++ rel))) ∧
    (∀ rel, table.lookup match_id = some rel →
      fs.pathExists (data_path ++ "/" ++ rel) = true →
      fs.pathExists (data_path ++ "/" ++ rel ++ "/home.csv") = false →
      load_tracking_data fs table data_path match_id home_or_away =
        .error (.trackingFileNotFound (data_path ++ "/" ++ rel ++ "/home.csv"))) ∧
    (∀ rel, table.lookup match_id = some rel →
      fs.pathExists (data_path ++ "/" ++ rel) = true →
      fs.pathExists (data_path ++ "/" ++ rel ++ "/home.csv") = true →
      fs.pathExists (data_path ++ "/" ++ rel ++ "/away.csv") = false →
      load_tracking_data fs table data_path match_id home_or_away =
        .error (.trackingFileNotFound (data_path ++ "/" ++ rel ++ "/away.csv"))) ∧
    (∀ rel, table.lookup match_id = some rel →
      fs.pathExists (data_path ++ "/" ++ rel) = true →
      fs.pathExists (data_path ++ "/" ++ rel ++ "/home.csv") = true →
      fs.pathExists (data_path ++ "/" ++ rel ++ "/away.csv") = true →
      (home_or_away = "both" →
        load_tracking_data fs table data_path match_id home_or_away =
          .ok (.both (fs.readCsv (data_path ++ "/" ++ rel ++ "/home.csv"))
                     (fs.readCsv (data_path ++ "/" ++ rel ++ "/away.csv")))) ∧
      (home_or_away = "home" →
        load_tracking_data fs table data_path match_id home_or_away =
          .ok (.single (fs.readCsv (data_path ++ "/" ++ rel ++ "/home.csv")))) ∧
      (home_or_away = "away" →
        load_tracking_data fs table data_path match_id home_or_away =
          .ok (.single (fs.readCsv (data_path ++ "/" ++ rel ++ "/away.csv")))) ∧
      (home_or_away ∉ (["home", "away", "both"] : List String) →
        load_tracking_data fs table data_path match_id home_or_away =
          .error .invalidHomeOrAway)) ∧
    load_tracking_data demoFS demoTable "data" 1 "both" =
      .ok (.both demoHome [⟨1, 5⟩]) ∧
    load_tracking_data demoFS demoTable "data" 2 "both" =
      .error (.matchIdNotFound 2) ∧
    load_tracking_data demoFS demoTable "data" 1 "sideways" =
      .error .invalidHomeOrAway ∧
    load_tracking_data demoFSNoAway demoTable "data" 1 "both" =
      .error (.trackingFileNotFound "data/H_EURO2024/match1/away.csv") := by
  refine ⟨?_, ?_, ?_, ?_, ?_, rfl, rfl, rfl, rfl⟩
  · intro h
    simp only [load_tracking_data, h]
  · intro rel h hdir
    simp only [load_tracking_data, h, hdir, Bool.not_false, if_true]
  · intro rel h hdir hhome
    have hd : (!fs.pathExists (data_path ++ "/" ++ rel)) = false := by
      rw [hdir]
      rfl
    simp only [load_tracking_data, h, hd, Bool.false_eq_true, if_false, hhome,
      Bool.not_false, if_true]
  · intro rel h hdir hhome haway
    have hd : (!fs.pathExists (data_path ++ "/" ++ rel)) = false := by
      rw [hdir]
      rfl
    have hh : (!fs.pathExists (data_path ++ "/" ++ rel ++ "/home.csv")) = false := by
      rw [hhome]
      rfl
    simp only [load_tracking_data, h, hd, Bool.false_eq_true, if_false, hh, haway,
      Bool.not_false, if_true]
  · intro rel h hdir hhome haway
    have hd : (!fs.pathExists (data_path ++ "/" ++ rel)) = false := by
      rw [hdir]
      rfl
    have hh : (!fs.pathExists (data_path ++ "/" ++ rel ++ "/home.csv")) = false := by
      rw [hhome]
      rfl
    have ha : (!fs.pathExists (data_path ++ "/" ++ rel ++ "/away.csv")) = false := by
      rw [haway]
      rfl
    refine ⟨?_, ?_, ?_, ?_⟩
    · intro hs
      subst hs
      simp only [load_tracking_data, h, hd, Bool.false_eq_true, if_false, hh, ha]
      rfl
    · intro hs
      subst hs
      simp only [load_tracking_data, h, hd, Bool.false_eq_true, if_false, hh, ha]
      rfl
    · intro hs
      subst hs
      simp only [load_tracking_data, h, hd, Bool.false_eq_true, if_false, hh, ha]
      rfl
    · intro hs
      simp only [List.mem_cons, List.not_mem_nil, or_false, not_or] at hs
      obtain ⟨h1, h2, h3⟩ := hs
      have b1 : (home_or_away == "both") = false := by simp [h3]
      have b2 : (home_or_away == "home") = false := by simp [h1]
      have b3 : (home_or_away == "away") = false := by simp [h2]
      simp only [load_tracking_data, h, hd, Bool.false_eq_true, if_false, hh, ha,
        b1, b2, b3]

/-- C10: for a known match whose directory exists, both per-side file checks
run before the side argument is validated -- home first, then away; so a
request for side "home" still fails with the missing-file error for the away
file, and an invalid side value fails with the missing-file error rather
than the invalid-side error whenever either per-side file is missing. -/
theorem load_tracking_file_checks_before_side (fs : FileSystem)
    (table : List (Nat × String)) (data_path : String) (match_id : Nat) :
    (∀ rel, table.lookup match_id = some rel →
      fs.pathExists (data_path ++ "/" ++ rel) = true →
      fs.pathExists (data_path ++ "/" ++ rel ++ "/home.csv") = false →
      ∀ home_or_away,
        load_tracking_data fs table data_path match_id home_or_away =
          .error (.trackingFileNotFound (data_path ++ "/" ++ rel ++ "/home.csv"))) ∧
    (∀ rel, table.lookup match_id = some rel →
      fs.pathExists (data_path ++ "/" ++ rel) = true →
      fs.pathExists (data_path ++ "/" ++ rel ++ "/home.csv") = true →
      fs.pathExists (data_path ++ "/" ++ rel ++ "/away.csv") = false →
      ∀ home_or_away,
        load_tracking_data fs table data_path match_id home_or_away =
          .error (.trackingFileNotFound (data_path ++ "/" ++ rel ++ "/away.csv"))) ∧
    load_tracking_data demoFSNoAway demoTable "data" 1 "home" =
      .error (.trackingFileNotFound "data/H_EURO2024/match1/away.csv") ∧
    load_tracking_data demoFSNoAway demoTable "data" 1 "sideways" =
      .error (.trackingFileNotFound "data/H_EURO2024/match1/away.csv") := by
  refine ⟨?_, ?_, rfl, rfl⟩
  · intro rel h hdir hhome home_or_away
    have hd : (!fs.pathExists (data_path ++ "/" ++ rel)) = false := by
      rw [hdir]
      rfl
    simp only [load_tracking_data, h, hd, Bool.false_eq_true, if_false, hhome,
      Bool.not_false, if_true]
  · intro rel h hdir hhome haway home_or_away
    have hd : (!fs.pathExists (data_path ++ "/" ++ rel)) = false := by
      rw [hdir]
      rfl
    have hh : (!fs.pathExists (data_path ++ "/" ++ rel ++ "/home.csv")) = false := by
      rw [hhome]
      rfl
    simp only [load_tracking_data, h, hd, Bool.false_eq_true, if_false, hh, haway,
      Bool.not_false, if_true]
